import Mathlib

/-!
Verification of the music-match-headphones recommendation engine.

The data model is embedded from `src/song.py` and `src/headphone.py`;
the recommendation engine from `generate_recommendations` in `src/main.py`
(lines 1041-1100) and the UI-side check `validate_and_show_use_case`
(lines 901-909).  Python floats are modelled as rationals (all the
arithmetic the engine performs is exact on the values involved), Python
lists as `List`, and the `ZeroDivisionError` that Python raises when the
selection is empty as an `Except.error` branch taken before any filtering
or scoring.
-/

namespace MusicMatch

/-- Python's `str.lower()`: lower-case every character.  (Stated over the
character list of the string so that it reduces in the kernel; on the
ASCII labels the catalog uses this agrees with Python.) -/
def strLower (s : String) : String := ⟨s.data.map Char.toLower⟩

instance {ε α : Type} [DecidableEq ε] [DecidableEq α] :
    DecidableEq (Except ε α) := fun a b =>
  match a, b with
  | Except.ok x, Except.ok y =>
      if h : x = y then isTrue (by rw [h]) else isFalse (by simp [h])
  | Except.error x, Except.error y =>
      if h : x = y then isTrue (by rw [h]) else isFalse (by simp [h])
  | Except.ok _, Except.error _ => isFalse (by simp)
  | Except.error _, Except.ok _ => isFalse (by simp)

/-- One row of the song table, from `Song.__init__` in `src/song.py`. -/
structure Song where
  track_id : String
  track_name : String
  track_artist : String
  track_popularity : Int
  playlist_genre : String
  playlist_subgenre : String
  danceability : ℚ
  energy : ℚ
  valence : ℚ
  tempo : ℚ
  acousticness : ℚ
  loudness : ℚ
deriving Repr, DecidableEq

/-- One row of the headphone table, from `Headphone.__init__` in
`src/headphone.py` (`noise_cancellation == "Yes"` is already coerced to a
boolean there, so we carry the boolean). -/
structure Headphone where
  headphone_id : String
  brand : String
  model : String
  price : ℚ
  hp_type : String
  use_case : String
  bass_level : String
  sound_profile : String
  noise_cancellation : Bool
  user_rating : ℚ
  user_reviews : Int
deriving Repr, DecidableEq

/-- `Headphone.matches_use_case` from `src/headphone.py`:
`self.use_case.lower() == use_case.lower()`. -/
def Headphone.matches_use_case (hp : Headphone) (uc : String) : Bool :=
  strLower hp.use_case == strLower uc

/-- `Headphone.get_category` from `src/headphone.py`: price < 150 is
Budget-Friendly, price > 400 is Best of the Line, else Best of Both. -/
def Headphone.get_category (hp : Headphone) : String :=
  if hp.price < 150 then "Budget-Friendly"
  else if hp.price > 400 then "Best of the Line"
  else "Best of Both"

/-- `avg_energy` in `generate_recommendations` (`src/main.py` line 1050):
`sum([s.energy for s in self.selected_songs]) / len(self.selected_songs)`. -/
def avg_energy (selected_songs : List Song) : ℚ :=
  (selected_songs.map Song.energy).sum / (selected_songs.length : ℚ)

/-- `avg_bass` in `generate_recommendations` (`src/main.py` line 1051):
the mean of `loudness` over the selection. -/
def avg_bass (selected_songs : List Song) : ℚ :=
  (selected_songs.map Song.loudness).sum / (selected_songs.length : ℚ)

/-- `matching_headphones` in `generate_recommendations` (`src/main.py`
lines 1059-1060): the catalog filtered by case-insensitive equality of
`use_case` with the selected use case. -/
def matching_headphones (use_case : String) (headphones : List Headphone) :
    List Headphone :=
  headphones.filter (fun hp => strLower hp.use_case == strLower use_case)

/-- The bass-preference part of the score accumulation in
`generate_recommendations` (`src/main.py` lines 1066-1071): +3 for
`avg_bass > -4` with High bass, else +3 for `avg_bass < -7` with Low bass,
else +2 for Medium bass, else nothing. -/
def bass_score (ab : ℚ) (hp : Headphone) : ℚ :=
  if ab > -4 ∧ hp.bass_level = "High" then 3
  else if ab < -7 ∧ hp.bass_level = "Low" then 3
  else if hp.bass_level = "Medium" then 2
  else 0

/-- The energy-preference part of the score accumulation in
`generate_recommendations` (`src/main.py` lines 1073-1078): +2 for
`avg_energy > 0.7` with a Bass-heavy profile, else +2 for
`avg_energy < 0.4` with a Flat profile, else +1 (the `else: score += 1`
catch-all of line 1078). -/
def energy_score (ae : ℚ) (hp : Headphone) : ℚ :=
  if ae > 7/10 ∧ hp.sound_profile = "Bass-heavy" then 2
  else if ae < 2/5 ∧ hp.sound_profile = "Flat" then 2
  else 1

/-- The total score a headphone receives in the loop of
`generate_recommendations` (`src/main.py` lines 1064-1081): the two bonus
blocks followed by `score += hp.user_rating`. -/
def score (ab ae : ℚ) (hp : Headphone) : ℚ :=
  bass_score ab hp + energy_score ae hp + hp.user_rating

/-- `scored_headphones` before the sort (`src/main.py` lines 1063-1081):
each matching headphone paired with its score, in catalog order. -/
def scored_headphones (songs : List Song) (use_case : String)
    (headphones : List Headphone) : List (Headphone × ℚ) :=
  (matching_headphones use_case headphones).map
    (fun hp => (hp, score (avg_bass songs) (avg_energy songs) hp))

/-- The ordering used by `scored_headphones.sort(key=lambda x: x[1],
reverse=True)` (`src/main.py` line 1083): descending by score.  Python's
sort is stable, so the line is modelled as the stable insertion sort by
this relation. -/
def scoreOrder (a b : Headphone × ℚ) : Prop := b.2 ≤ a.2

instance : DecidableRel scoreOrder :=
  fun a b => inferInstanceAs (Decidable (b.2 ≤ a.2))

instance : IsTotal (Headphone × ℚ) scoreOrder :=
  ⟨fun a b => le_total b.2 a.2⟩

instance : IsTrans (Headphone × ℚ) scoreOrder :=
  ⟨fun _ _ _ hab hbc => le_trans hbc hab⟩

/-- `scored_headphones` after the in-place `sort(key=lambda x: x[1],
reverse=True)` of `src/main.py` line 1083. -/
def ranked (songs : List Song) (use_case : String)
    (headphones : List Headphone) : List (Headphone × ℚ) :=
  List.insertionSort scoreOrder (scored_headphones songs use_case headphones)

/-- `budget` (`src/main.py` line 1086): the first three ranked headphones
with `hp.price < 150`. -/
def budget (songs : List Song) (use_case : String)
    (headphones : List Headphone) : List Headphone :=
  ((((ranked songs use_case headphones).filter
      (fun x => decide (x.1.price < 150))).map Prod.fst).take 3)

/-- `premium` (`src/main.py` line 1087): the first three ranked headphones
with `hp.price > 400`. -/
def premium (songs : List Song) (use_case : String)
    (headphones : List Headphone) : List Headphone :=
  ((((ranked songs use_case headphones).filter
      (fun x => decide (x.1.price > 400))).map Prod.fst).take 3)

/-- `balanced` (`src/main.py` line 1088): the first three ranked headphones
with `150 <= hp.price <= 400`. -/
def balanced (songs : List Song) (use_case : String)
    (headphones : List Headphone) : List Headphone :=
  ((((ranked songs use_case headphones).filter
      (fun x => decide (150 ≤ x.1.price ∧ x.1.price ≤ 400))).map Prod.fst).take 3)

/-- `all_recommended = budget + premium + balanced` (`src/main.py`
line 1096). -/
def all_recommended (songs : List Song) (use_case : String)
    (headphones : List Headphone) : List Headphone :=
  budget songs use_case headphones ++ premium songs use_case headphones ++
    balanced songs use_case headphones

/-- Python's `max(l, key=f)` for a non-empty list: it scans left to right
and replaces the current best only on a strictly greater key, so it
returns the first element attaining the maximum key. -/
def max_by (key : Headphone → ℚ) : List Headphone → Option Headphone
  | [] => none
  | x :: xs =>
      some (xs.foldl (fun best hp => if key best < key hp then hp else best) x)

/-- The key `hp.user_rating * hp.user_reviews` of `src/main.py` line 1098. -/
def review_key (hp : Headphone) : ℚ :=
  hp.user_rating * (hp.user_reviews : ℚ)

/-- `most_reviewed` (`src/main.py` lines 1097-1098):
`max(all_recommended, key=...) if all_recommended else None`. -/
def most_reviewed (songs : List Song) (use_case : String)
    (headphones : List Headphone) : Option Headphone :=
  max_by review_key (all_recommended songs use_case headphones)

/-- The value handed to `show_recommendations` (`src/main.py` lines
1090-1100): the three tier lists, keyed in the fixed order Budget-Friendly,
Best of the Line, Best of Both, plus the optional highlight. -/
structure RecommendationResult where
  budget_friendly : List Headphone
  best_of_the_line : List Headphone
  best_of_both : List Headphone
  most_reviewed : Option Headphone
deriving Repr, DecidableEq

/-- `generate_recommendations` (`src/main.py` lines 1041-1100) as a whole.
The body performs no validation of the selection; its first real statements
divide by `len(self.selected_songs)` (lines 1050-1052), so an empty
selection raises `ZeroDivisionError` in Python before any filtering or
scoring happens, modelled here as the error branch.  Every non-empty
selection of any size, with or without duplicates, and any use-case string
proceeds to a normal result. -/
def generate_recommendations (songs : List Song) (use_case : String)
    (headphones : List Headphone) : Except String RecommendationResult :=
  if songs.length = 0 then Except.error "ZeroDivisionError"
  else Except.ok
    { budget_friendly := budget songs use_case headphones
      best_of_the_line := premium songs use_case headphones
      best_of_both := balanced songs use_case headphones
      most_reviewed := most_reviewed songs use_case headphones }

/-- `validate_and_show_use_case` (`src/main.py` lines 901-909), the only
selection-size check in the repository: it lives in the UI layer, shows a
warning dialog and stays on the song screen when fewer than 5 songs are
selected, and otherwise proceeds to the use-case screen.  Modelled as the
boolean "did it proceed". -/
def validate_and_show_use_case (selected_songs : List Song) : Bool :=
  if selected_songs.length < 5 then false else true

/-- A selection song used by the concrete scenarios: loudness -2 dB and
energy 0.85, so that a five-copy selection averages to Scenario A's
`avg_loudness = -2.0`, `avg_energy = 0.85`. -/
def songA (i : Nat) : Song :=
  { track_id := toString i, track_name := "t", track_artist := "a"
    track_popularity := 50, playlist_genre := "pop"
    playlist_subgenre := "dance pop", danceability := 1/2
    energy := 17/20, valence := 1/2, tempo := 120
    acousticness := 1/10, loudness := -2 }

/-- Scenario A's five-song selection. -/
def songsA : List Song := [songA 1, songA 2, songA 3, songA 4, songA 5]

/-- A four-song selection (one short of the required five). -/
def songs4 : List Song := [songA 1, songA 2, songA 3, songA 4]

/-- Scenario A's headphone: Workout use case, High bass, Bass-heavy
profile, rating 4.5, price 120. -/
def hpA : Headphone :=
  { headphone_id := "H1", brand := "B", model := "M", price := 120
    hp_type := "over-ear", use_case := "Workout", bass_level := "High"
    sound_profile := "Bass-heavy", noise_cancellation := true
    user_rating := 9/2, user_reviews := 1000 }

/-- A Medium-bass headphone, for exercising the bass-bonus cases. -/
def hpMedium : Headphone :=
  { headphone_id := "H2", brand := "B", model := "M2", price := 200
    hp_type := "over-ear", use_case := "Workout", bass_level := "Medium"
    sound_profile := "Balanced", noise_cancellation := false
    user_rating := 4, user_reviews := 500 }

/-- A Balanced-profile headphone, for exercising the energy-bonus
catch-all. -/
def hpBalanced : Headphone :=
  { headphone_id := "H3", brand := "B", model := "M3", price := 500
    hp_type := "in-ear", use_case := "Casual", bass_level := "Low"
    sound_profile := "Balanced", noise_cancellation := false
    user_rating := 3, user_reviews := 200 }

/-- Scenario D: a headphone priced at exactly 150. -/
def hp150 : Headphone :=
  { headphone_id := "H4", brand := "B", model := "M4", price := 150
    hp_type := "over-ear", use_case := "Studio", bass_level := "Medium"
    sound_profile := "Flat", noise_cancellation := true
    user_rating := 4, user_reviews := 300 }

/-- Scenario D: a headphone priced at exactly 400. -/
def hp400 : Headphone :=
  { headphone_id := "H5", brand := "B", model := "M5", price := 400
    hp_type := "over-ear", use_case := "Studio", bass_level := "Medium"
    sound_profile := "Flat", noise_cancellation := true
    user_rating := 4, user_reviews := 300 }

/-- Scenario C: first of two headphones that tie on score (both Medium
bass, Balanced profile, rating 4, so each scores 2 + 1 + 4 = 7 on the
Scenario A selection). -/
def hpTie1 : Headphone :=
  { headphone_id := "H6", brand := "B", model := "A", price := 100
    hp_type := "over-ear", use_case := "Workout", bass_level := "Medium"
    sound_profile := "Balanced", noise_cancellation := false
    user_rating := 4, user_reviews := 100 }

/-- Scenario C: second of the two tied headphones. -/
def hpTie2 : Headphone :=
  { headphone_id := "H7", brand := "B", model := "B", price := 120
    hp_type := "over-ear", use_case := "Workout", bass_level := "Medium"
    sound_profile := "Balanced", noise_cancellation := false
    user_rating := 4, user_reviews := 100 }

end MusicMatch

namespace MusicMatch

/-- C5: price tier is a pure function of price with boundaries
price < 150 for Budget-Friendly, price > 400 for Best of the Line, and
150 ≤ price ≤ 400 for Best of Both, and the engine buckets the ranked
list with exactly these boundaries, i.e. each tier list is the take-3 of
the ranked list filtered by `get_category`. -/
theorem price_tier_boundaries :
    (∀ hp : Headphone,
      (hp.get_category = "Budget-Friendly" ↔ hp.price < 150) ∧
      (hp.get_category = "Best of the Line" ↔ 400 < hp.price) ∧
      (hp.get_category = "Best of Both" ↔ 150 ≤ hp.price ∧ hp.price ≤ 400)) ∧
    (∀ (songs : List Song) (uc : String) (cat : List Headphone),
      budget songs uc cat = ((((ranked songs uc cat).filter
        (fun x => decide (x.1.get_category = "Budget-Friendly"))).map Prod.fst).take 3) ∧
      premium songs uc cat = ((((ranked songs uc cat).filter
        (fun x => decide (x.1.get_category = "Best of the Line"))).map Prod.fst).take 3) ∧
      balanced songs uc cat = ((((ranked songs uc cat).filter
        (fun x => decide (x.1.get_category = "Best of Both"))).map Prod.fst).take 3)) := by
  have hiff : ∀ hp : Headphone,
      (hp.get_category = "Budget-Friendly" ↔ hp.price < 150) ∧
      (hp.get_category = "Best of the Line" ↔ 400 < hp.price) ∧
      (hp.get_category = "Best of Both" ↔ 150 ≤ hp.price ∧ hp.price ≤ 400) := by
    intro hp
    unfold Headphone.get_category
    split_ifs with h1 h2
    · refine ⟨iff_of_true rfl h1, iff_of_false (by decide) ?_,
        iff_of_false (by decide) ?_⟩
      · intro hx
        linarith
      · rintro ⟨hc, hd⟩
        linarith
    · refine ⟨iff_of_false (by decide) h1, iff_of_true rfl h2,
        iff_of_false (by decide) ?_⟩
      rintro ⟨hc, hd⟩
      linarith
    · exact ⟨iff_of_false (by decide) h1, iff_of_false (by decide) h2,
        iff_of_true rfl ⟨by linarith, by linarith⟩⟩
  refine ⟨hiff, fun songs uc cat => ⟨?_, ?_, ?_⟩⟩
  · exact congrArg (fun l => (List.map Prod.fst l).take 3)
      (List.filter_congr (fun x _ => decide_eq_decide.mpr ((hiff x.1).1).symm))
  · exact congrArg (fun l => (List.map Prod.fst l).take 3)
      (List.filter_congr (fun x _ => decide_eq_decide.mpr ((hiff x.1).2.1).symm))
  · exact congrArg (fun l => (List.map Prod.fst l).take 3)
      (List.filter_congr (fun x _ => decide_eq_decide.mpr ((hiff x.1).2.2).symm))

/-- C5 witness: Scenario D — a headphone priced exactly 150 and one priced
exactly 400 both land in Best of Both. -/
theorem price_tier_boundaries_witness :
    hp150.get_category = "Best of Both" ∧ hp400.get_category = "Best of Both" :=
  ⟨((price_tier_boundaries.1 hp150).2.2).mpr (by norm_num [hp150]),
   ((price_tier_boundaries.1 hp400).2.2).mpr (by norm_num [hp400])⟩

/-- C10: invoking the engine with an empty selection hits the division by
`len(self.selected_songs) = 0` in the average computation and fails with
`ZeroDivisionError` before any filtering or scoring, for every use case
and every catalog — the engine has no guard on the selection size. -/
theorem empty_selection_division_by_zero (uc : String) (cat : List Headphone) :
    generate_recommendations [] uc cat = Except.error "ZeroDivisionError" := rfl


/-- C2 counterexample: the claimed catch-all "+1 in every remaining case"
is false — a Medium-bass headphone gets +2, and a High-bass headphone with
the selection average in the -7..-4 band gets +0. -/
theorem bass_bonus_medium_is_two :
    bass_score (-2) hpMedium = 2 ∧ bass_score (-2) hpMedium ≠ 1 ∧
    bass_score (-5) hpA = 0 ∧ bass_score (-5) hpA ≠ 1 := by
  norm_num +decide [bass_score, hpMedium, hpA]

/-- C2 amended: the bass component is +3 when `avg_loudness > -4` with
High bass, else +3 when `avg_loudness < -7` with Low bass, else +2 for a
Medium-bass headphone, and +0 in every remaining case (in particular a
High/Low headphone with the average in the -7..-4 band gets +0). -/
theorem bass_bonus_cases (ab : ℚ) (hp : Headphone) :
    (ab > -4 → hp.bass_level = "High" → bass_score ab hp = 3) ∧
    (ab < -7 → hp.bass_level = "Low" → bass_score ab hp = 3) ∧
    (hp.bass_level = "Medium" → bass_score ab hp = 2) ∧
    (¬ (ab > -4 ∧ hp.bass_level = "High") → ¬ (ab < -7 ∧ hp.bass_level = "Low") →
      hp.bass_level ≠ "Medium" → bass_score ab hp = 0) := by
  unfold bass_score
  refine ⟨fun h1 h2 => ?_, fun h1 h2 => ?_, fun h => ?_, fun h1 h2 h3 => ?_⟩
  · rw [if_pos ⟨h1, h2⟩]
  · have hn : ¬ (ab > -4 ∧ hp.bass_level = "High") := by
      rintro ⟨ha, hb⟩
      rw [h2] at hb
      exact absurd hb (by decide)
    rw [if_neg hn, if_pos ⟨h1, h2⟩]
  · have hn1 : ¬ (ab > -4 ∧ hp.bass_level = "High") := by
      rintro ⟨_, hb⟩
      rw [h] at hb
      exact absurd hb (by decide)
    have hn2 : ¬ (ab < -7 ∧ hp.bass_level = "Low") := by
      rintro ⟨_, hb⟩
      rw [h] at hb
      exact absurd hb (by decide)
    rw [if_neg hn1, if_neg hn2, if_pos h]
  · rw [if_neg h1, if_neg h2, if_neg h3]

/-- C2 witness: the amended bass-bonus cases at concrete inputs — High
bass with average -2 gets 3, Medium bass gets 2, High bass with the
average in the band (-5) gets 0. -/
theorem bass_bonus_cases_witness :
    bass_score (-2) hpA = 3 ∧ bass_score (-2) hpMedium = 2 ∧
    bass_score (-5) hpA = 0 :=
  ⟨(bass_bonus_cases (-2) hpA).1 (by norm_num) rfl,
   (bass_bonus_cases (-2) hpMedium).2.2.1 rfl,
   (bass_bonus_cases (-5) hpA).2.2.2 (by norm_num [hpA]) (by norm_num [hpA])
     (by decide)⟩

/-- C3 counterexample: the claim that the energy bonus has no catch-all is
false — a Balanced-profile headphone at average energy 0.5 gets +1, not 0
(the code has `else: score += 1`). -/
theorem energy_bonus_default_is_one :
    energy_score (1/2) hpBalanced = 1 ∧ energy_score (1/2) hpBalanced ≠ 0 := by
  norm_num +decide [energy_score, hpBalanced]

/-- C3 amended: the energy component is +2 when `avg_energy > 0.7` with a
Bass-heavy profile, else +2 when `avg_energy < 0.4` with a Flat profile,
and +1 in every remaining case — the catch-all `else` branch exists for
the energy bonus (it is the bass bonus that lacks one). -/
theorem energy_bonus_cases (ae : ℚ) (hp : Headphone) :
    (ae > 7/10 → hp.sound_profile = "Bass-heavy" → energy_score ae hp = 2) ∧
    (ae < 2/5 → hp.sound_profile = "Flat" → energy_score ae hp = 2) ∧
    (¬ (ae > 7/10 ∧ hp.sound_profile = "Bass-heavy") →
      ¬ (ae < 2/5 ∧ hp.sound_profile = "Flat") → energy_score ae hp = 1) := by
  unfold energy_score
  refine ⟨fun h1 h2 => ?_, fun h1 h2 => ?_, fun h1 h2 => ?_⟩
  · rw [if_pos ⟨h1, h2⟩]
  · have hn : ¬ (ae > 7/10 ∧ hp.sound_profile = "Bass-heavy") := by
      rintro ⟨ha, _⟩
      linarith
    rw [if_neg hn, if_pos ⟨h1, h2⟩]
  · rw [if_neg h1, if_neg h2]

/-- C3 witness: the amended energy-bonus cases at concrete inputs —
Bass-heavy at average energy 0.85 gets 2, Balanced at 0.5 gets the
catch-all 1. -/
theorem energy_bonus_cases_witness :
    energy_score (17/20) hpA = 2 ∧ energy_score (1/2) hpBalanced = 1 :=
  ⟨(energy_bonus_cases (17/20) hpA).1 (by norm_num) rfl,
   (energy_bonus_cases (1/2) hpBalanced).2.2 (by norm_num +decide [hpBalanced])
     (by norm_num +decide [hpBalanced])⟩


/-- C1 counterexample: on Scenario A inputs (average loudness -2.0,
average energy 0.85, the Workout/High/Bass-heavy headphone with rating 4.5
and price 120, requested use case "workout") the engine scores the
headphone 4.5 + 3 + 2 = 9.5, not 14 — the base component is
`user_rating`, not `user_rating * 2`. -/
theorem scenario_a_score_not_fourteen :
    scored_headphones songsA "workout" [hpA] = [(hpA, 19/2)] ∧
    ((19 : ℚ)/2 ≠ 14) ∧
    generate_recommendations songsA "workout" [hpA] =
      Except.ok ⟨[hpA], [], [], some hpA⟩ := by
  refine ⟨?_, by norm_num, ?_⟩ <;>
    norm_num +decide [generate_recommendations, budget, premium, balanced,
      most_reviewed, all_recommended, max_by, review_key, ranked,
      scored_headphones, matching_headphones, avg_bass, avg_energy, songsA,
      songA, hpA, score, bass_score, energy_score, strLower, scoreOrder]

/-- C1 amended: the base component of every total score is `user_rating`
(times one, not two) — removing the two preference bonuses from the total
always leaves exactly `user_rating` — and on Scenario A inputs the
headphone scores 9.5 and appears in the Budget-Friendly tier. -/
theorem score_base_is_user_rating :
    (∀ (ab ae : ℚ) (hp : Headphone),
      score ab ae hp - bass_score ab hp - energy_score ae hp = hp.user_rating) ∧
    score (avg_bass songsA) (avg_energy songsA) hpA = 19/2 ∧
    budget songsA "workout" [hpA] = [hpA] := by
  refine ⟨fun ab ae hp => by unfold score; ring, ?_, ?_⟩ <;>
    norm_num +decide [budget, ranked, scored_headphones, matching_headphones,
      avg_bass, avg_energy, songsA, songA, hpA, score, bass_score,
      energy_score, strLower, scoreOrder]

/-- C4 counterexample: calling the engine with only four selected songs
neither raises `InvalidSelectionError` (no such error exists anywhere in
the repository) nor fails in any other way — it returns an ordinary
result. -/
theorem four_songs_no_error :
    generate_recommendations songs4 "workout" [hpA] =
      Except.ok ⟨[hpA], [], [], some hpA⟩ := by
  norm_num +decide [generate_recommendations, budget, premium, balanced,
    most_reviewed, all_recommended, max_by, review_key, ranked,
    scored_headphones, matching_headphones, avg_bass, avg_energy, songs4,
    songA, hpA, score, bass_score, energy_score, strLower, scoreOrder]

/-- C4 amended: the engine itself performs no validation at all — for
every non-empty selection (any count, duplicates included) and every
use-case string (even empty) it returns a normal result; the only
selection-size check in the repository is the UI-layer
`validate_and_show_use_case`, which proceeds exactly when at least 5 songs
are selected. -/
theorem engine_performs_no_validation :
    (∀ (songs : List Song) (uc : String) (cat : List Headphone), songs ≠ [] →
      generate_recommendations songs uc cat = Except.ok
        { budget_friendly := budget songs uc cat
          best_of_the_line := premium songs uc cat
          best_of_both := balanced songs uc cat
          most_reviewed := most_reviewed songs uc cat }) ∧
    (∀ songs : List Song,
      validate_and_show_use_case songs = true ↔ 5 ≤ songs.length) := by
  constructor
  · intro songs uc cat h
    unfold generate_recommendations
    rw [if_neg (by simpa using h)]
  · intro songs
    unfold validate_and_show_use_case
    split_ifs with h <;> simp <;> omega

/-- C4 witness: a four-song selection with an empty use case and empty
catalog still yields a normal result, and the UI check passes a five-song
selection. -/
theorem engine_performs_no_validation_witness :
    generate_recommendations songs4 "" [] = Except.ok
      { budget_friendly := budget songs4 "" []
        best_of_the_line := premium songs4 "" []
        best_of_both := balanced songs4 "" []
        most_reviewed := most_reviewed songs4 "" [] } ∧
    validate_and_show_use_case songsA = true :=
  ⟨engine_performs_no_validation.1 songs4 "" [] (by decide),
   (engine_performs_no_validation.2 songsA).mpr (by decide)⟩


/-- C9: when no catalog headphone matches the requested use case (and the
selection is non-empty, so the average computation succeeds), the engine
raises nothing and returns a result with all three tiers empty and the
highlight absent. -/
theorem no_matches_yields_empty_result (songs : List Song) (uc : String)
    (cat : List Headphone) (h : songs ≠ [])
    (hm : matching_headphones uc cat = []) :
    generate_recommendations songs uc cat = Except.ok ⟨[], [], [], none⟩ := by
  unfold generate_recommendations
  rw [if_neg (by simpa using h)]
  simp [budget, premium, balanced, most_reviewed, all_recommended, ranked,
    scored_headphones, hm, max_by]

/-- C9 witness: a Workout headphone does not match the "studio" use case,
and the run on Scenario A songs with a one-headphone Workout catalog and
requested use case "studio" returns the all-empty result. -/
theorem no_matches_yields_empty_result_witness :
    matching_headphones "studio" [hpA] = [] ∧
    generate_recommendations songsA "studio" [hpA] =
      Except.ok ⟨[], [], [], none⟩ :=
  ⟨by decide,
   no_matches_yields_empty_result songsA "studio" [hpA] (by decide) (by decide)⟩

/-- C8: `matches_use_case` is exactly case-insensitive equality of the
`use_case` field with its argument, and every headphone in any of the
three result tier lists matches the requested use case (case
insensitively). -/
theorem tier_members_match_use_case (songs : List Song) (uc : String)
    (cat : List Headphone) :
    (∀ (hp : Headphone) (c : String),
      hp.matches_use_case c = true ↔ strLower hp.use_case = strLower c) ∧
    (∀ hp : Headphone,
      hp ∈ budget songs uc cat ∨ hp ∈ premium songs uc cat ∨
        hp ∈ balanced songs uc cat →
      hp.matches_use_case uc = true) := by
  have hmem : ∀ (p : Headphone × ℚ → Bool) (hp : Headphone),
      hp ∈ ((((ranked songs uc cat).filter p).map Prod.fst).take 3) →
      hp ∈ matching_headphones uc cat := by
    intro p hp h
    have h1 : hp ∈ ((ranked songs uc cat).filter p).map Prod.fst :=
      List.mem_of_mem_take h
    obtain ⟨x, hx, hfst⟩ := List.mem_map.mp h1
    have hx2 : x ∈ ranked songs uc cat := List.mem_of_mem_filter hx
    have hx3 : x ∈ scored_headphones songs uc cat :=
      (List.perm_insertionSort scoreOrder _).mem_iff.mp hx2
    obtain ⟨hp0, hh, heq⟩ := List.mem_map.mp hx3
    rw [← hfst, ← heq]
    exact hh
  constructor
  · intro hp c
    unfold Headphone.matches_use_case
    exact beq_iff_eq
  · intro hp h
    have hm : hp ∈ matching_headphones uc cat := by
      rcases h with h | h | h
      · exact hmem _ hp h
      · exact hmem _ hp h
      · exact hmem _ hp h
    unfold matching_headphones at hm
    exact (List.mem_filter.mp hm).2

/-- C8 witness: the Scenario A headphone sits in the Budget-Friendly tier
of its run and indeed matches the requested "workout" use case. -/
theorem tier_members_match_use_case_witness :
    hpA.matches_use_case "workout" = true :=
  (tier_members_match_use_case songsA "workout" [hpA]).2 hpA
    (Or.inl (by norm_num +decide [budget, ranked, scored_headphones,
      matching_headphones, avg_bass, avg_energy, songsA, songA, hpA, score,
      bass_score, energy_score, strLower, scoreOrder]))


/-- Invariant of the fold inside `max_by` (Python's `max` with a key): the
result is the accumulator itself when no element strictly beats it, or the
first listed element that strictly beats the accumulator and every element
before it, with everything after it no greater. -/
theorem foldl_max_invariant (key : Headphone → ℚ) :
    ∀ (xs : List Headphone) (acc : Headphone),
      (xs.foldl (fun best hp => if key best < key hp then hp else best) acc = acc ∧
        ∀ y ∈ xs, key y ≤ key acc) ∨
      (∃ l1 m l2, xs = l1 ++ m :: l2 ∧
        xs.foldl (fun best hp => if key best < key hp then hp else best) acc = m ∧
        key acc < key m ∧ (∀ y ∈ l1, key y < key m) ∧ (∀ y ∈ l2, key y ≤ key m))
  | [], acc => Or.inl ⟨rfl, by simp⟩
  | x :: xs, acc => by
    rcases lt_or_le (key acc) (key x) with hlt | hle
    · have hstep :
          (x :: xs).foldl (fun best hp => if key best < key hp then hp else best) acc =
            xs.foldl (fun best hp => if key best < key hp then hp else best) x := by
        rw [List.foldl_cons, if_pos hlt]
      rcases foldl_max_invariant key xs x with ⟨heq, hall⟩ |
        ⟨l1, m, l2, hsplit, heq, hgt, hl1, hl2⟩
      · refine Or.inr ⟨[], x, xs, by simp, ?_, hlt, by simp, hall⟩
        rw [hstep, heq]
      · refine Or.inr ⟨x :: l1, m, l2, by rw [hsplit]; rfl, ?_,
          lt_trans hlt hgt, ?_, hl2⟩
        · rw [hstep, heq]
        · intro y hy
          rcases List.mem_cons.mp hy with rfl | hy
          · exact hgt
          · exact hl1 y hy
    · have hstep :
          (x :: xs).foldl (fun best hp => if key best < key hp then hp else best) acc =
            xs.foldl (fun best hp => if key best < key hp then hp else best) acc := by
        rw [List.foldl_cons, if_neg (not_lt.mpr hle)]
      rcases foldl_max_invariant key xs acc with ⟨heq, hall⟩ |
        ⟨l1, m, l2, hsplit, heq, hgt, hl1, hl2⟩
      · refine Or.inl ⟨by rw [hstep, heq], ?_⟩
        intro y hy
        rcases List.mem_cons.mp hy with rfl | hy
        · exact hle
        · exact hall y hy
      · refine Or.inr ⟨x :: l1, m, l2, by rw [hsplit]; rfl, ?_, hgt, ?_, hl2⟩
        · rw [hstep, heq]
        · intro y hy
          rcases List.mem_cons.mp hy with rfl | hy
          · exact lt_of_le_of_lt hle hgt
          · exact hl1 y hy

/-- C7: when the union of the three tier lists (in the fixed order
Budget-Friendly, Best of the Line, Best of Both) is empty the highlight is
absent with no error; when it is non-empty the highlight is a member of
the union, no member has a strictly greater `user_rating * user_reviews`
product, and every member listed before the highlight has a strictly
smaller product (first-occurrence tie-breaking). -/
theorem highlight_spec (songs : List Song) (uc : String) (cat : List Headphone) :
    (all_recommended songs uc cat = [] → most_reviewed songs uc cat = none) ∧
    (all_recommended songs uc cat ≠ [] →
      ∃ hp, most_reviewed songs uc cat = some hp ∧
        hp ∈ all_recommended songs uc cat ∧
        (∀ h2 ∈ all_recommended songs uc cat, review_key h2 ≤ review_key hp) ∧
        ∃ l1 l2, all_recommended songs uc cat = l1 ++ hp :: l2 ∧
          ∀ y ∈ l1, review_key y < review_key hp) := by
  constructor
  · intro h
    unfold most_reviewed
    rw [h]
    rfl
  · intro h
    rcases hl : all_recommended songs uc cat with _ | ⟨x, xs⟩
    · exact absurd hl h
    · have hmr : most_reviewed songs uc cat =
          some (xs.foldl (fun best hp =>
            if review_key best < review_key hp then hp else best) x) := by
        unfold most_reviewed max_by
        rw [hl]
      rcases foldl_max_invariant review_key xs x with ⟨heq, hall⟩ |
        ⟨l1, m, l2, hsplit, heq, hgt, hl1, hl2⟩
      · refine ⟨x, ?_, List.mem_cons_self x xs, ?_, [], xs, rfl, by simp⟩
        · rw [hmr, heq]
        · intro h2 hh2
          rcases List.mem_cons.mp hh2 with rfl | hh2
          · exact le_refl _
          · exact hall h2 hh2
      · refine ⟨m, ?_, ?_, ?_, x :: l1, l2, ?_, ?_⟩
        · rw [hmr, heq]
        · rw [hsplit]
          simp
        · intro h2 hh2
          rcases List.mem_cons.mp hh2 with rfl | hh2
          · exact le_of_lt hgt
          · rw [hsplit] at hh2
            rcases List.mem_append.mp hh2 with hh2 | hh2
            · exact le_of_lt (hl1 h2 hh2)
            · rcases List.mem_cons.mp hh2 with rfl | hh2
              · exact le_refl _
              · exact hl2 h2 hh2
        · rw [hsplit]
          rfl
        · intro y hy
          rcases List.mem_cons.mp hy with rfl | hy
          · exact hgt
          · exact hl1 y hy

/-- C7 witness: on the "studio" run the union is empty and the highlight
is absent; on the "workout" run the union is non-empty and the highlight
satisfies the membership, maximality and first-occurrence properties. -/
theorem highlight_spec_witness :
    most_reviewed songsA "studio" [hpA] = none ∧
    (∃ hp, most_reviewed songsA "workout" [hpA] = some hp ∧
      hp ∈ all_recommended songsA "workout" [hpA] ∧
      (∀ h2 ∈ all_recommended songsA "workout" [hpA],
        review_key h2 ≤ review_key hp) ∧
      ∃ l1 l2, all_recommended songsA "workout" [hpA] = l1 ++ hp :: l2 ∧
        ∀ y ∈ l1, review_key y < review_key hp) :=
  ⟨(highlight_spec songsA "studio" [hpA]).1 (by decide),
   (highlight_spec songsA "workout" [hpA]).2 (by
     norm_num +decide [all_recommended, budget, premium, balanced, ranked,
       scored_headphones, matching_headphones, avg_bass, avg_energy, songsA,
       songA, hpA, score, bass_score, energy_score, strLower, scoreOrder])⟩


/-- C6: the ranked list is sorted by score descending, it is a stable
permutation of the scored list (a pair of entries in original catalog
order with equal scores stays in that order), and each tier list is the
first at-most-3 ranked headphones whose price falls in the tier, in rank
order, with each tier list capped at length 3 (fewer, including zero, when
not enough qualify). -/
theorem ranking_stable_and_bucketed (songs : List Song) (uc : String)
    (cat : List Headphone) :
    (ranked songs uc cat).Sorted (fun a b : Headphone × ℚ => b.2 ≤ a.2) ∧
    List.Perm (ranked songs uc cat) (scored_headphones songs uc cat) ∧
    (∀ a b : Headphone × ℚ, a.2 = b.2 →
      List.Sublist [a, b] (scored_headphones songs uc cat) →
      List.Sublist [a, b] (ranked songs uc cat)) ∧
    (budget songs uc cat =
        ((((ranked songs uc cat).map Prod.fst).filter
          (fun hp => decide (hp.price < 150))).take 3) ∧
      premium songs uc cat =
        ((((ranked songs uc cat).map Prod.fst).filter
          (fun hp => decide (hp.price > 400))).take 3) ∧
      balanced songs uc cat =
        ((((ranked songs uc cat).map Prod.fst).filter
          (fun hp => decide (150 ≤ hp.price ∧ hp.price ≤ 400))).take 3)) ∧
    (budget songs uc cat).length ≤ 3 ∧ (premium songs uc cat).length ≤ 3 ∧
      (balanced songs uc cat).length ≤ 3 := by
  refine ⟨List.sorted_insertionSort scoreOrder _,
    List.perm_insertionSort scoreOrder _,
    fun a b hab hsub =>
      List.pair_sublist_insertionSort (le_of_eq hab.symm) hsub,
    ⟨?_, ?_, ?_⟩, ?_, ?_, ?_⟩
  · exact congrArg (fun l => l.take 3)
      (List.filter_map (p := fun hp => decide (hp.price < 150))
        Prod.fst (ranked songs uc cat)).symm
  · exact congrArg (fun l => l.take 3)
      (List.filter_map (p := fun hp => decide (hp.price > 400))
        Prod.fst (ranked songs uc cat)).symm
  · exact congrArg (fun l => l.take 3)
      (List.filter_map (p := fun hp => decide (150 ≤ hp.price ∧ hp.price ≤ 400))
        Prod.fst (ranked songs uc cat)).symm
  · exact List.length_take_le 3 _
  · exact List.length_take_le 3 _
  · exact List.length_take_le 3 _

/-- C6 witness: Scenario C — two Workout headphones that tie at score 7
keep their original catalog order (hpTie1 before hpTie2) in the ranked
output. -/
theorem ranking_stable_witness :
    List.Sublist [(hpTie1, (7 : ℚ)), (hpTie2, 7)]
      (ranked songsA "workout" [hpTie1, hpTie2]) :=
  (ranking_stable_and_bucketed songsA "workout" [hpTie1, hpTie2]).2.2.1
    (hpTie1, 7) (hpTie2, 7) rfl
    (by
      have h : scored_headphones songsA "workout" [hpTie1, hpTie2] =
          [(hpTie1, 7), (hpTie2, 7)] := by
        norm_num +decide [scored_headphones, matching_headphones, avg_bass,
          avg_energy, songsA, songA, hpTie1, hpTie2, score, bass_score,
          energy_score, strLower]
      rw [h])

end MusicMatch
